import Mathlib

/-!
Verification of `gold_price_monitor.py`.

The program polls two bank gold-price endpoints, keeps a bounded
in-memory history of `(timestamp, price)` samples per source, appends
each reading as a CSV-quoted line to a per-day log file, styles a price
label against two user thresholds, and redraws a chart on a 15-second
tkinter timer.

Python strings are modelled as lists of characters (`PyStr`); Python
floats are modelled by their exact rational value; the mutable history
dict `{"timestamp": [], "price": []}` is the structure `DataHistory`.
I/O (HTTP, the file system, tkinter) enters the model as oracle inputs:
the outcome of each `fetch_bank_data` call is a `FetchResult`, a log
file is a `List PyStr` of its lines (or `none` when the file does not
exist), and the side effects of one `fetch_data` tick are collected in a
`TickOutput` together with the ordered trace of tick events.
-/

/-- Python strings, modelled as lists of characters. -/
abbrev PyStr := List Char

/-- Configuration constant `MAX_DATA_POINTS = 240`. -/
def MAX_DATA_POINTS : Nat := 240

/-- A calendar timestamp, modelling a Python `datetime.datetime` value
down to seconds (the precision used by the program's time format). -/
structure Timestamp where
  year : Nat
  month : Nat
  day : Nat
  hour : Nat
  minute : Nat
  second : Nat
deriving DecidableEq, Repr

/-- Injective monotone key for lexicographic timestamp comparison on
calendar-valid values (month < 13, day < 32, hour < 24, minute and
second < 60). -/
def Timestamp.key (t : Timestamp) : Nat :=
  ((((t.year * 13 + t.month) * 32 + t.day) * 24 + t.hour) * 60 + t.minute) * 60 + t.second

/-- Timestamp comparison; agrees with Python `datetime` order on
calendar-valid values. -/
def Timestamp.le (a b : Timestamp) : Bool := a.key ≤ b.key

/-- Numeric value of a decimal digit character. -/
def digitVal (c : Char) : Nat := c.toNat - '0'.toNat

/-- Numeric value of a string of decimal digits. -/
def natOfDigits (l : List Char) : Nat := l.foldl (fun n c => 10 * n + digitVal c) 0

/-- Python `str.strip()`: remove leading and trailing whitespace. -/
def pyStrip (s : PyStr) : PyStr :=
  ((s.dropWhile Char.isWhitespace).reverse.dropWhile Char.isWhitespace).reverse

/-- Python `str.split(sep)` for a one-character separator: the maximal
(possibly empty) chunks between occurrences of the separator. -/
def pySplit (sep : Char) : PyStr → List PyStr
  | [] => [[]]
  | c :: cs =>
    if c = sep then [] :: pySplit sep cs
    else
      match pySplit sep cs with
      | [] => [[c]]
      | g :: gs => (c :: g) :: gs

/-- Exponent part of a Python float literal: an optional sign followed by
at least one digit, consuming the whole remaining string. -/
def parseExpPart (t : PyStr) : Option Int :=
  match t with
  | '+' :: rest =>
    if rest ≠ [] ∧ rest.all Char.isDigit then some (natOfDigits rest : Int) else none
  | '-' :: rest =>
    if rest ≠ [] ∧ rest.all Char.isDigit then some (-(natOfDigits rest : Int)) else none
  | rest =>
    if rest ≠ [] ∧ rest.all Char.isDigit then some (natOfDigits rest : Int) else none

/-- Unsigned part of a Python float literal: digits with an optional
fraction and an optional exponent, at least one mantissa digit. The
value is the exact rational denoted. -/
def parseUnsignedFloat (t : PyStr) : Option ℚ :=
  let ipart := t.takeWhile Char.isDigit
  let rest := t.dropWhile Char.isDigit
  let afterMantissa : Option (PyStr × ℚ) :=
    match rest with
    | '.' :: rest2 =>
      let fpart := rest2.takeWhile Char.isDigit
      let rest3 := rest2.dropWhile Char.isDigit
      if ipart.isEmpty && fpart.isEmpty then none
      else some (rest3, (natOfDigits ipart : ℚ) + (natOfDigits fpart : ℚ) / (10 : ℚ) ^ fpart.length)
    | _ =>
      if ipart.isEmpty then none else some (rest, (natOfDigits ipart : ℚ))
  match afterMantissa with
  | none => none
  | some (r, m) =>
    match r with
    | [] => some m
    | e :: rest4 =>
      if e = 'e' ∨ e = 'E' then (parseExpPart rest4).map (fun z => m * (10 : ℚ) ^ z)
      else none

/-- Model of Python `float(s)` on finite decimal literals: surrounding
whitespace is stripped, then an optional sign and a decimal literal with
optional fraction and exponent. The value is the exact rational denoted
(`inf`, `nan` and digit-group underscores are not modelled). `none`
models a raised `ValueError`. -/
def pyFloat? (s : PyStr) : Option ℚ :=
  match pyStrip s with
  | '+' :: t => parseUnsignedFloat t
  | '-' :: t => (parseUnsignedFloat t).map Neg.neg
  | t => parseUnsignedFloat t

/-- Field `%Y` of CPython strptime: exactly four digits. -/
def parseYearField : PyStr → Option (Nat × PyStr)
  | a :: b :: c :: d :: rest =>
    if a.isDigit ∧ b.isDigit ∧ c.isDigit ∧ d.isDigit then
      some (natOfDigits [a, b, c, d], rest)
    else none
  | _ => none

/-- Field `%m` of CPython strptime, regex `1[0-2]|0[1-9]|[1-9]`. -/
def parseMonthField : PyStr → Option (Nat × PyStr)
  | a :: b :: rest =>
    if a = '1' ∧ '0' ≤ b ∧ b ≤ '2' then some (natOfDigits [a, b], rest)
    else if a = '0' ∧ '1' ≤ b ∧ b ≤ '9' then some (natOfDigits [a, b], rest)
    else if '1' ≤ a ∧ a ≤ '9' then some (digitVal a, b :: rest)
    else none
  | [a] => if '1' ≤ a ∧ a ≤ '9' then some (digitVal a, []) else none
  | [] => none

/-- Field `%d` of CPython strptime, regex `3[01]|[12]\d|0[1-9]|[1-9]`. -/
def parseDayField : PyStr → Option (Nat × PyStr)
  | a :: b :: rest =>
    if a = '3' ∧ (b = '0' ∨ b = '1') then some (natOfDigits [a, b], rest)
    else if (a = '1' ∨ a = '2') ∧ b.isDigit then some (natOfDigits [a, b], rest)
    else if a = '0' ∧ '1' ≤ b ∧ b ≤ '9' then some (natOfDigits [a, b], rest)
    else if '1' ≤ a ∧ a ≤ '9' then some (digitVal a, b :: rest)
    else none
  | [a] => if '1' ≤ a ∧ a ≤ '9' then some (digitVal a, []) else none
  | [] => none

/-- Field `%H` of CPython strptime, regex `2[0-3]|[0-1]\d|\d`. -/
def parseHourField : PyStr → Option (Nat × PyStr)
  | a :: b :: rest =>
    if a = '2' ∧ '0' ≤ b ∧ b ≤ '3' then some (natOfDigits [a, b], rest)
    else if (a = '0' ∨ a = '1') ∧ b.isDigit then some (natOfDigits [a, b], rest)
    else if a.isDigit then some (digitVal a, b :: rest)
    else none
  | [a] => if a.isDigit then some (digitVal a, []) else none
  | [] => none

/-- Fields `%M` and `%S` of CPython strptime, regex `[0-5]\d|\d`. -/
def parseMinSecField : PyStr → Option (Nat × PyStr)
  | a :: b :: rest =>
    if '0' ≤ a ∧ a ≤ '5' ∧ b.isDigit then some (natOfDigits [a, b], rest)
    else if a.isDigit then some (digitVal a, b :: rest)
    else none
  | [a] => if a.isDigit then some (digitVal a, []) else none
  | [] => none

/-- Consume one expected literal character. -/
def expectChar (c : Char) : PyStr → Option PyStr
  | x :: rest => if x = c then some rest else none
  | [] => none

/-- Gregorian leap-year rule, as used by `datetime`. -/
def isLeapYear (y : Nat) : Bool := y % 4 == 0 && (y % 100 != 0 || y % 400 == 0)

/-- Number of days in a month, as validated by the `datetime` constructor. -/
def daysInMonth (y m : Nat) : Nat :=
  if m = 2 then (if isLeapYear y then 29 else 28)
  else if m = 4 ∨ m = 6 ∨ m = 9 ∨ m = 11 then 30
  else 31

/-- Model of `datetime.datetime.strptime(s, "%Y-%m-%d %H:%M:%S")`: the
field grammars follow CPython's `_strptime` regexes, the whole string
must be consumed, and the date must be calendar-valid (as enforced by
the `datetime` constructor). `none` models a raised `ValueError`. -/
def strptime? (s : PyStr) : Option Timestamp := do
  let (y, r1) ← parseYearField s
  let r2 ← expectChar '-' r1
  let (mo, r3) ← parseMonthField r2
  let r4 ← expectChar '-' r3
  let (d, r5) ← parseDayField r4
  let r6 ← expectChar ' ' r5
  let (h, r7) ← parseHourField r6
  let r8 ← expectChar ':' r7
  let (mi, r9) ← parseMinSecField r8
  let r10 ← expectChar ':' r9
  let (se, r11) ← parseMinSecField r10
  if r11 = [] ∧ 1 ≤ y ∧ d ≤ daysInMonth y mo then
    some ⟨y, mo, d, h, mi, se⟩
  else none

/-- The per-source history dict `{"timestamp": [], "price": []}`. -/
structure DataHistory where
  timestamp : List Timestamp
  price : List ℚ
deriving DecidableEq, Repr

/-- A fresh empty history. -/
def emptyHistory : DataHistory := ⟨[], []⟩

/-- Function `save_data_to_history(data_history, price, timestamp)`.
The price argument is the raw value from the JSON payload, converted
with `float` only after the timestamp append. The Boolean is `true`
when the call returns normally and `false` when `float(price)` raises
`ValueError`; in the latter case the returned state reflects the
mutation already performed before the exception (the timestamp was
appended, the price was not). -/
def save_data_to_history (data_history : DataHistory) (price : PyStr)
    (timestamp : Timestamp) : DataHistory × Bool :=
  let h1 : DataHistory := { data_history with timestamp := data_history.timestamp ++ [timestamp] }
  match pyFloat? price with
  | none => (h1, false)
  | some p =>
    let h2 : DataHistory := { h1 with price := h1.price ++ [p] }
    if MAX_DATA_POINTS < h2.timestamp.length then
      ({ timestamp := h2.timestamp.tail, price := h2.price.tail }, true)
    else (h2, true)

/-- Body of the line-reading loop in `read_data_from_log`: strip the
line, skip it when blank, split on the quote character, require at
least five parts, then convert `parts[1]` with `strptime` and
`parts[3]` with `float`. `none` models `continue` (a skipped line). -/
def parse_log_line (line : PyStr) : Option (Timestamp × ℚ) :=
  let l := pyStrip line
  if l = [] then none
  else
    let parts := pySplit '"' l
    if parts.length < 5 then none
    else
      match strptime? (parts.getD 1 []), pyFloat? (parts.getD 3 []) with
      | some timestamp, some price => some (timestamp, price)
      | _, _ => none

/-- Function `read_data_from_log(file_path)`. The argument is `none`
when `os.path.exists(file_path)` is false and otherwise the list of the
file's lines. The collecting loop with its `continue`s is `filterMap`,
`parsed_data.sort(key=lambda x: x[0])` is a stable merge sort on the
timestamp, the `[-MAX_DATA_POINTS:]` slice is `drop`, and the final
separating loop is the two `map`s. -/
def read_data_from_log (file : Option (List PyStr)) : DataHistory :=
  match file with
  | none => emptyHistory
  | some lines =>
    let parsed := lines.filterMap parse_log_line
    let sorted := parsed.mergeSort (fun a b => a.1.le b.1)
    let kept := if MAX_DATA_POINTS < sorted.length
      then sorted.drop (sorted.length - MAX_DATA_POINTS) else sorted
    { timestamp := kept.map Prod.fst, price := kept.map Prod.snd }

/-- The line produced by `csv_formatter`, the format
`'"%(time)s","%(price)s"'`, for one record (the file handler's trailing
newline is stripped again on reading). -/
def csv_line (time price : PyStr) : PyStr :=
  ['"'] ++ time ++ ['"', ',', '"'] ++ price ++ ['"']

/-- Font configurations used by `update_price_label`:
`("Arial", 12, "bold")` and `("Arial", 12)`. -/
inductive FontKind
  | bold12
  | plain12
deriving DecidableEq, Repr

/-- Foreground colours used by `update_price_label`. -/
inductive FgColor
  | red
  | green
  | black
deriving DecidableEq, Repr

/-- Configuration of a tkinter price label: `text`, `font`, `fg`. -/
structure PriceLabel where
  text : PyStr
  font : FontKind
  fg : FgColor
deriving DecidableEq, Repr

/-- Expression `float(v) if v else None` used for the two threshold
entries inside `update_price_label`; `.error ()` is a raised
`ValueError` on a non-empty, non-numeric entry. -/
def floatOrNone (v : PyStr) : Except Unit (Option ℚ) :=
  if v = [] then .ok none
  else
    match pyFloat? v with
    | some q => .ok (some q)
    | none => .error ()

/-- Function `update_price_label` (label-styling part; the pop-up
notification and the `notification_sent` flags touch only the GUI and
are not modelled). All three `float` conversions run before the
conditionals; a `ValueError` in any of them selects the default black
style. The sell branch `current >= expect` is checked before the buy
branch `buy_expect >= current`. -/
def update_price_label (bank_name current_price datetime_str expect_value
    buy_expect_value : PyStr) : PriceLabel :=
  let text := bank_name ++ (" Price: ".toList) ++ current_price
    ++ ("\n时间: ".toList) ++ datetime_str
  let styled : Except Unit PriceLabel := do
    let current ← match pyFloat? current_price with
      | some q => Except.ok q
      | none => Except.error ()
    let expect ← floatOrNone expect_value
    let buy_expect ← floatOrNone buy_expect_value
    match expect with
    | some e =>
      if e ≤ current then pure ⟨text, .bold12, .red⟩
      else
        match buy_expect with
        | some b =>
          if current ≤ b then pure ⟨text, .bold12, .green⟩
          else pure ⟨text, .plain12, .black⟩
        | none => pure ⟨text, .plain12, .black⟩
    | none =>
      match buy_expect with
      | some b =>
        if current ≤ b then pure ⟨text, .bold12, .green⟩
        else pure ⟨text, .plain12, .black⟩
      | none => pure ⟨text, .plain12, .black⟩
  match styled with
  | .ok lbl => lbl
  | .error _ => ⟨text, .plain12, .black⟩

/-- The two monitored sources. -/
inductive Bank
  | zs
  | ms
deriving DecidableEq, Repr

/-- The exception classes caught by `fetch_data`:
`requests.exceptions.RequestException`, `ValueError` (JSON parse /
numeric conversion), `KeyError` (missing field). -/
inductive FetchErr
  | requestErr
  | valueErr
  | keyErr
deriving DecidableEq, Repr

/-- Observable outcome of one `fetch_bank_data(url, bank_name)` call,
which performs the HTTP request, JSON decoding and field extraction and
therefore enters the model as an oracle: either the returned
`(price, datetime_str)` pair or the exception it raises. -/
inductive FetchResult
  | ok (price : PyStr) (datetimeStr : PyStr)
  | err (e : FetchErr)
deriving DecidableEq, Repr

/-- The mutable program state touched by one tick: the two histories and
the two price labels. -/
structure MonitorState where
  zs_data_history : DataHistory
  ms_data_history : DataHistory
  zs_price_label : PriceLabel
  ms_price_label : PriceLabel
deriving DecidableEq, Repr

/-- Oracle inputs of one `fetch_data` tick: the outcomes of the two
fetches, the four threshold entry contents, and the current time used
by `save_data_to_history`'s default timestamp. -/
structure TickInput where
  zsFetch : FetchResult
  msFetch : FetchResult
  zs_expect_value : PyStr
  zs_buy_expect_value : PyStr
  ms_expect_value : PyStr
  ms_buy_expect_value : PyStr
  now : Timestamp
deriving DecidableEq, Repr

/-- Events of one tick, in execution order. -/
inductive TickEvent
  | fetchCall (b : Bank)
  | labelSet (b : Bank)
  | logAppend (b : Bank)
  | historySave (b : Bank)
  | chartUpdate
  | schedule (delayMs : Nat)
deriving DecidableEq, Repr

/-- Recogniser for scheduling events. -/
def isScheduleEvent : TickEvent → Bool
  | .schedule _ => true
  | _ => false

/-- Result of one `fetch_data` tick: the new state, the lines appended
to each source's log file during the tick, and the ordered event trace. -/
structure TickOutput where
  state : MonitorState
  zsLog : List PyStr
  msLog : List PyStr
  events : List TickEvent
deriving DecidableEq, Repr

/-- Text set on the zs label by the `except` handlers of `fetch_data`. -/
def errTextZs : FetchErr → PyStr
  | .requestErr => "ZS 请求出错".toList
  | .valueErr => "ZS 解析 JSON 失败".toList
  | .keyErr => "ZS 数据缺失".toList

/-- Text set on the ms label by the `except` handlers of `fetch_data`. -/
def errTextMs : FetchErr → PyStr
  | .requestErr => "MS 请求出错".toList
  | .valueErr => "MS 解析 JSON 失败".toList
  | .keyErr => "MS 数据缺失".toList

/-- One tick of `fetch_data`. Control flow follows the `try` body: fetch
zs, fetch ms, read the entries, style both labels, append one log line
per source, save both histories, redraw. An exception from a fetch
jumps to the matching handler, which only rewrites the two label texts;
a `ValueError` raised by `float` inside a save likewise jumps to the
`ValueError` handler, keeping the state mutations already performed.
`check_and_update_log_path` only moves the log path (out of scope here)
and the final `root.after(15000, fetch_data)` runs after the
`try/except` in every case. -/
def fetch_data (st : MonitorState) (inp : TickInput) : TickOutput :=
  let body : TickOutput :=
    match inp.zsFetch with
    | .err e =>
      { state := { st with
          zs_price_label := { st.zs_price_label with text := errTextZs e },
          ms_price_label := { st.ms_price_label with text := errTextMs e } },
        zsLog := [], msLog := [],
        events := [.fetchCall .zs, .labelSet .zs, .labelSet .ms] }
    | .ok zs_price zs_datetime =>
      match inp.msFetch with
      | .err e =>
        { state := { st with
            zs_price_label := { st.zs_price_label with text := errTextZs e },
            ms_price_label := { st.ms_price_label with text := errTextMs e } },
          zsLog := [], msLog := [],
          events := [.fetchCall .zs, .fetchCall .ms, .labelSet .zs, .labelSet .ms] }
      | .ok ms_price ms_datetime =>
        let zsLbl := update_price_label ("浙商".toList) zs_price zs_datetime
          inp.zs_expect_value inp.zs_buy_expect_value
        let msLbl := update_price_label ("民生".toList) ms_price ms_datetime
          inp.ms_expect_value inp.ms_buy_expect_value
        let zsLine := csv_line zs_datetime zs_price
        let msLine := csv_line ms_datetime ms_price
        let zsSaved := save_data_to_history st.zs_data_history zs_price inp.now
        if zsSaved.2 then
          let msSaved := save_data_to_history st.ms_data_history ms_price inp.now
          if msSaved.2 then
            let newState : MonitorState :=
              ⟨zsSaved.1, msSaved.1, zsLbl, msLbl⟩
            { state := newState,
              zsLog := [zsLine], msLog := [msLine],
              events := [.fetchCall .zs, .fetchCall .ms, .labelSet .zs, .labelSet .ms,
                .logAppend .zs, .logAppend .ms, .historySave .zs, .historySave .ms,
                .chartUpdate] }
          else
            let newState : MonitorState :=
              ⟨zsSaved.1, msSaved.1,
                { zsLbl with text := errTextZs .valueErr },
                { msLbl with text := errTextMs .valueErr }⟩
            { state := newState,
              zsLog := [zsLine], msLog := [msLine],
              events := [.fetchCall .zs, .fetchCall .ms, .labelSet .zs, .labelSet .ms,
                .logAppend .zs, .logAppend .ms, .historySave .zs, .historySave .ms,
                .labelSet .zs, .labelSet .ms] }
        else
          let newState : MonitorState :=
            ⟨zsSaved.1, st.ms_data_history,
              { zsLbl with text := errTextZs .valueErr },
              { msLbl with text := errTextMs .valueErr }⟩
          { state := newState,
            zsLog := [zsLine], msLog := [msLine],
            events := [.fetchCall .zs, .fetchCall .ms, .labelSet .zs, .labelSet .ms,
              .logAppend .zs, .logAppend .ms, .historySave .zs,
              .labelSet .zs, .labelSet .ms] }
  { body with events := body.events ++ [.schedule 15000] }

/-- Repeated appends through `save_data_to_history`, starting from the
empty history: the accumulation performed by successive ticks. -/
def foldSave (samples : List (Timestamp × PyStr)) : DataHistory :=
  samples.foldl (fun h s => (save_data_to_history h s.2 s.1).1) emptyHistory

/-- Fixed timestamp used by concrete evaluations. -/
def t0 : Timestamp := ⟨2024, 1, 1, 0, 0, 0⟩

/-- A default-styled label, as created by `create_bank_ui`. -/
def initLabel : PriceLabel := ⟨[], .plain12, .black⟩

/-- A start state with empty histories and default labels. -/
def initState : MonitorState := ⟨emptyHistory, emptyHistory, initLabel, initLabel⟩

/-- A tick input whose first fetch fails with a network error. -/
def inpZsErr : TickInput := ⟨.err .requestErr, .err .requestErr, [], [], [], [], t0⟩

/-- A tick input where the first fetch succeeds and the second raises. -/
def inpMsErr : TickInput :=
  ⟨.ok ("500".toList) ("2024-01-01 00:00:00".toList), .err .valueErr, [], [], [], [], t0⟩

/-- A tick input where both fetches succeed. -/
def inpOk : TickInput :=
  ⟨.ok ("500".toList) ("2024-01-01 00:00:00".toList),
   .ok ("501".toList) ("2024-01-01 00:00:01".toList), [], [], [], [], t0⟩

/-! ### Helper lemmas about `save_data_to_history` -/

/-- Evaluation of one save when the conversion `float(price)` fails: the
timestamp has already been appended, the prices are untouched. -/
theorem save_eq_of_none (tsl : List Timestamp) (pr : List ℚ) (p : PyStr)
    (ts : Timestamp) (hp : pyFloat? p = none) :
    save_data_to_history ⟨tsl, pr⟩ p ts = (⟨tsl ++ [ts], pr⟩, false) := by
  simp [save_data_to_history, hp]

/-- Evaluation of one save when the conversion `float(price)` succeeds:
append to both lists, then pop the head of both when the capacity is
exceeded. -/
theorem save_eq_of_some (tsl : List Timestamp) (pr : List ℚ) (p : PyStr)
    (ts : Timestamp) (v : ℚ) (hp : pyFloat? p = some v) :
    save_data_to_history ⟨tsl, pr⟩ p ts =
      (if MAX_DATA_POINTS < tsl.length + 1 then
        (⟨(tsl ++ [ts]).tail, (pr ++ [v]).tail⟩, true)
      else (⟨tsl ++ [ts], pr ++ [v]⟩, true)) := by
  simp [save_data_to_history, hp]

/-! ### Claim theorems -/

/-- C1: the in-memory history never exceeds `MAX_DATA_POINTS` (240)
entries per source: `save_data_to_history` with a numeric price maps a
history of length at most 240 to one of length at most 240, a failed
conversion never touches the price list at all, and
`read_data_from_log` returns at most 240 entries for every input file. -/
theorem history_never_exceeds_max :
    (∀ (tsl : List Timestamp) (pr : List ℚ) (p : PyStr) (ts : Timestamp) (v : ℚ),
      pyFloat? p = some v →
      tsl.length = pr.length → tsl.length ≤ MAX_DATA_POINTS →
      (save_data_to_history ⟨tsl, pr⟩ p ts).1.timestamp.length ≤ MAX_DATA_POINTS ∧
      (save_data_to_history ⟨tsl, pr⟩ p ts).1.price.length ≤ MAX_DATA_POINTS) ∧
    (∀ (tsl : List Timestamp) (pr : List ℚ) (p : PyStr) (ts : Timestamp),
      pyFloat? p = none →
      (save_data_to_history ⟨tsl, pr⟩ p ts).1.price = pr) ∧
    (∀ file, (read_data_from_log file).timestamp.length ≤ MAX_DATA_POINTS ∧
      (read_data_from_log file).price.length ≤ MAX_DATA_POINTS) := by
  have hM : MAX_DATA_POINTS = 240 := rfl
  refine ⟨?_, ?_, ?_⟩
  · intro tsl pr p ts v hp hsync hts
    rw [save_eq_of_some tsl pr p ts v hp]
    by_cases hc : MAX_DATA_POINTS < tsl.length + 1
    · rw [if_pos hc]
      simp only [List.length_tail, List.length_append, List.length_singleton]
      omega
    · rw [if_neg hc]
      simp only [List.length_append, List.length_singleton]
      omega
  · intro tsl pr p ts hp
    rw [save_eq_of_none tsl pr p ts hp]
  · intro file
    cases file with
    | none => exact ⟨by decide, by decide⟩
    | some lines =>
      simp only [read_data_from_log, List.length_map]
      constructor <;>
      · split
        · rename_i hgt
          rw [List.length_drop]
          omega
        · rename_i hle
          omega
  
/-- Witness for C1 at a concrete input. -/
theorem history_never_exceeds_max_witness :
    (save_data_to_history ⟨[], []⟩ ("500".toList) t0).1.timestamp.length
        ≤ MAX_DATA_POINTS ∧
    (save_data_to_history ⟨[], []⟩ ("500".toList) t0).1.price.length
        ≤ MAX_DATA_POINTS :=
  history_never_exceeds_max.1 [] [] ("500".toList) t0 500 (by decide)
    (by decide) (by decide)

/-- C5 (bug exhibit): the parallel-lists invariant breaks on a
non-numeric price. `save_data_to_history` appends the timestamp before
converting the price, so `float("abc")` raises `ValueError` mid-update
and leaves the timestamp list one longer than the price list; reached
from a full tick (`fetch_data` catches the `ValueError` after the
mutation has happened). -/
theorem save_desyncs_on_nonnumeric_price :
    (save_data_to_history ⟨[], []⟩ ("abc".toList) t0).1.timestamp.length = 1 ∧
    (save_data_to_history ⟨[], []⟩ ("abc".toList) t0).1.price.length = 0 ∧
    (save_data_to_history ⟨[], []⟩ ("abc".toList) t0).2 = false ∧
    (fetch_data initState
      ⟨.ok ("abc".toList) ("2024-01-01 00:00:00".toList),
       .ok ("500".toList) ("2024-01-01 00:00:00".toList),
       [], [], [], [], t0⟩).state.zs_data_history.timestamp.length = 1 ∧
    (fetch_data initState
      ⟨.ok ("abc".toList) ("2024-01-01 00:00:00".toList),
       .ok ("500".toList) ("2024-01-01 00:00:00".toList),
       [], [], [], [], t0⟩).state.zs_data_history.price.length = 0 := by
  decide

/-- C4: FIFO truncation at fixed capacity: folding
`save_data_to_history` over k appended samples with numeric prices,
starting from the empty history, leaves exactly the last
min(k, 240) samples in append order (only index-0 entries are ever
removed). -/
theorem foldSave_keeps_last_max (samples : List (Timestamp × PyStr))
    (hall : ∀ s ∈ samples, (pyFloat? s.2).isSome) :
    foldSave samples =
      { timestamp := (samples.drop (samples.length - MAX_DATA_POINTS)).map Prod.fst,
        price := (samples.drop (samples.length - MAX_DATA_POINTS)).map
          (fun s => (pyFloat? s.2).getD 0) } := by
  have hM : MAX_DATA_POINTS = 240 := rfl
  induction samples using List.reverseRecOn with
  | nil => rfl
  | append_singleton l x ih =>
    have hl : ∀ s ∈ l, (pyFloat? s.2).isSome := fun s hs => hall s (by simp [hs])
    have hx : (pyFloat? x.2).isSome := hall x (by simp)
    obtain ⟨v, hv⟩ := Option.isSome_iff_exists.mp hx
    have hfold : foldSave (l ++ [x]) = (save_data_to_history (foldSave l) x.2 x.1).1 := by
      simp [foldSave, List.foldl_concat]
    rw [hfold, ih hl, save_eq_of_some _ _ _ _ v hv]
    by_cases hlen : l.length < MAX_DATA_POINTS
    · have h0 : l.length - MAX_DATA_POINTS = 0 := Nat.sub_eq_zero_of_le (Nat.le_of_lt hlen)
      have h1 : l.length + 1 - MAX_DATA_POINTS = 0 := by omega
      have hcond : ¬ MAX_DATA_POINTS <
          ((l.drop (l.length - MAX_DATA_POINTS)).map Prod.fst).length + 1 := by
        rw [List.length_map, List.length_drop]
        omega
      rw [if_neg hcond]
      simp [h0, h1, hv]
    · push_neg at hlen
      have hAlen : (l.drop (l.length - MAX_DATA_POINTS)).length = MAX_DATA_POINTS := by
        rw [List.length_drop]
        omega
      have hcond : MAX_DATA_POINTS <
          ((l.drop (l.length - MAX_DATA_POINTS)).map Prod.fst).length + 1 := by
        rw [List.length_map, hAlen]
        omega
      rw [if_pos hcond]
      have hpos : 0 < (l.drop (l.length - MAX_DATA_POINTS)).length := by
        rw [hAlen]
        omega
      obtain ⟨a, A, hA⟩ :=
        List.exists_cons_of_ne_nil (List.ne_nil_of_length_pos hpos)
      have hdrop : (l ++ [x]).drop ((l ++ [x]).length - MAX_DATA_POINTS) = A ++ [x] := by
        have h2 : (l ++ [x]).length - MAX_DATA_POINTS = (l.length - MAX_DATA_POINTS) + 1 := by
          simp only [List.length_append, List.length_singleton]
          omega
        rw [h2, List.drop_append_of_le_length (by omega), ← List.tail_drop, hA]
        rfl
      rw [hdrop, hA]
      simp [hv]

/-- Witness for C4 at a concrete input. -/
theorem foldSave_keeps_last_max_witness :
    foldSave [(t0, ['1']), (t0, ['2'])] =
      { timestamp := ([(t0, ['1']), (t0, ['2'])].drop
          ([(t0, ['1']), (t0, ['2'])].length - MAX_DATA_POINTS)).map Prod.fst,
        price := ([(t0, ['1']), (t0, ['2'])].drop
          ([(t0, ['1']), (t0, ['2'])].length - MAX_DATA_POINTS)).map
          (fun s => (pyFloat? s.2).getD 0) } :=
  foldSave_keeps_last_max _ (by decide)

/-! ### Helper lemmas about splitting and stripping -/

/-- Splitting a string that starts with the separator yields a leading
empty chunk. -/
theorem pySplit_sep_cons (sep : Char) (l : PyStr) :
    pySplit sep (sep :: l) = [] :: pySplit sep l := by
  simp [pySplit]

/-- Splitting peels off a separator-free prefix at the first separator. -/
theorem pySplit_append_sep (sep : Char) (a b : PyStr) (ha : sep ∉ a) :
    pySplit sep (a ++ sep :: b) = a :: pySplit sep b := by
  induction a with
  | nil => simp [pySplit]
  | cons c a ih =>
    have hc : c ≠ sep := fun h => ha (h ▸ List.mem_cons_self c a)
    have ha' : sep ∉ a := fun h => ha (List.mem_cons_of_mem c h)
    simp [pySplit, hc, ih ha']

/-- Stripping is the identity on a quoted line: it starts and ends with
a quote, which is not whitespace. -/
theorem pyStrip_quoted (mid : PyStr) :
    pyStrip (['"'] ++ mid ++ ['"']) = ['"'] ++ mid ++ ['"'] := by
  have hq : Char.isWhitespace '"' = false := by decide
  simp [pyStrip, hq, List.dropWhile, List.reverse_append]

/-- Reassociation of the formatted line around its delimiters. -/
theorem csv_line_eq (time price : PyStr) :
    csv_line time price = ['"'] ++ (time ++ ['"', ',', '"'] ++ price) ++ ['"'] := by
  simp [csv_line]

/-- The split-on-quote parse of a formatted line whose fields are
quote-free: exactly the five expected parts. -/
theorem pySplit_csv_line (time price : PyStr) (htq : '"' ∉ time) (hpq : '"' ∉ price) :
    pySplit '"' (csv_line time price) = [[], time, [','], price, []] := by
  have h1 : csv_line time price
      = '"' :: (time ++ '"' :: (',' :: '"' :: (price ++ '"' :: []))) := by
    simp [csv_line]
  have h2 : (',' : Char) :: '"' :: (price ++ '"' :: [])
      = [','] ++ '"' :: (price ++ '"' :: []) := rfl
  rw [h1, pySplit_sep_cons, pySplit_append_sep _ _ _ htq, h2,
    pySplit_append_sep _ _ _ (by decide), pySplit_append_sep _ _ _ hpq]
  rfl

/-- C2 (counterexample): the claimed round-trip fails as universally
stated: for the timestamp string "bad" (which `strptime` rejects) and
the price "1.5", the formatted line is skipped by
`read_data_from_log`'s parser, so no price is recovered at all. -/
theorem csv_roundtrip_fails_unparsable_time :
    parse_log_line (csv_line ("bad".toList) ("1.5".toList)) = none := by
  decide

/-- C2 (amended): the round-trip holds for well-formed fields: when the
timestamp string parses with the time format, the price string is a
valid float literal, and neither contains a quote character, formatting
with `csv_formatter` and parsing the line back recovers exactly the
original timestamp and float value. -/
theorem csv_roundtrip (time price : PyStr) (ts : Timestamp) (q : ℚ)
    (hts : strptime? time = some ts) (hq : pyFloat? price = some q)
    (htq : '"' ∉ time) (hpq : '"' ∉ price) :
    parse_log_line (csv_line time price) = some (ts, q) := by
  have hsplit := pySplit_csv_line time price htq hpq
  have hstrip : pyStrip (csv_line time price) = csv_line time price := by
    rw [csv_line_eq]
    exact pyStrip_quoted _
  have hne : csv_line time price ≠ [] := by simp [csv_line]
  simp [parse_log_line, hstrip, hsplit, hne, hts, hq]

/-- Witness for the amended C2 at concrete fields. -/
theorem csv_roundtrip_witness :
    parse_log_line (csv_line ("2024-01-02 03:04:05".toList) ("500".toList))
      = some (⟨2024, 1, 2, 3, 4, 5⟩, 500) :=
  csv_roundtrip _ _ _ _ (by decide) (by decide) (by decide) (by decide)

/-- Line-skip lemma: any of the four rejection conditions of the
reading loop makes the line contribute nothing. -/
theorem parse_log_line_eq_none_of_skippable (line : PyStr)
    (h : pyStrip line = [] ∨ (pySplit '"' (pyStrip line)).length < 5 ∨
      strptime? ((pySplit '"' (pyStrip line)).getD 1 []) = none ∨
      pyFloat? ((pySplit '"' (pyStrip line)).getD 3 []) = none) :
    parse_log_line line = none := by
  by_cases hb : pyStrip line = []
  · simp [parse_log_line, hb]
  · rcases h with h | h | h | h
    · exact absurd h hb
    · simp [parse_log_line, hb, h]
    · by_cases h5 : (pySplit '"' (pyStrip line)).length < 5
      · simp [parse_log_line, hb, h5]
      · rw [List.getD_eq_getElem?_getD] at h
        simp [parse_log_line, hb, h5, h]
    · by_cases h5 : (pySplit '"' (pyStrip line)).length < 5
      · simp [parse_log_line, hb, h5]
      · rw [List.getD_eq_getElem?_getD] at h
        rcases hst : strptime? ((pySplit '"' (pyStrip line))[1]?.getD []) with _ | t
        · simp [parse_log_line, hb, h5, hst]
        · simp [parse_log_line, hb, h5, hst, h]

/-- C10: `read_data_from_log` is total and normalising: a missing file
yields the empty history; a line that is blank, splits into fewer than
five quote-delimited parts, or whose time or price field fails to
parse, is skipped without affecting the result; and the returned
entries are in ascending timestamp order. -/
theorem read_log_total_and_normalising :
    read_data_from_log none = emptyHistory ∧
    (∀ (line : PyStr) (rest : List PyStr),
      (pyStrip line = [] ∨ (pySplit '"' (pyStrip line)).length < 5 ∨
        strptime? ((pySplit '"' (pyStrip line)).getD 1 []) = none ∨
        pyFloat? ((pySplit '"' (pyStrip line)).getD 3 []) = none) →
      read_data_from_log (some (line :: rest)) = read_data_from_log (some rest)) ∧
    (∀ file, List.Sorted (fun a b : Timestamp => a.le b = true)
      (read_data_from_log file).timestamp) := by
  refine ⟨rfl, ?_, ?_⟩
  · intro line rest h
    have hnone : parse_log_line line = none := parse_log_line_eq_none_of_skippable line h
    simp [read_data_from_log, List.filterMap_cons_none, hnone]
  · intro file
    cases file with
    | none => simp [read_data_from_log, emptyHistory, List.Sorted]
    | some lines =>
      have htrans : ∀ a b c : Timestamp × ℚ,
          (fun x y : Timestamp × ℚ => x.1.le y.1) a b = true →
          (fun x y : Timestamp × ℚ => x.1.le y.1) b c = true →
          (fun x y : Timestamp × ℚ => x.1.le y.1) a c = true := by
        intro a b c hab hbc
        simp only [Timestamp.le, decide_eq_true_eq] at hab hbc ⊢
        exact Nat.le_trans hab hbc
      have htotal : ∀ a b : Timestamp × ℚ,
          ((fun x y : Timestamp × ℚ => x.1.le y.1) a b ||
           (fun x y : Timestamp × ℚ => x.1.le y.1) b a) = true := by
        intro a b
        simp only [Timestamp.le, Bool.or_eq_true, decide_eq_true_eq]
        exact Nat.le_total _ _
      have hsorted := @List.sorted_mergeSort (Timestamp × ℚ)
        (fun x y : Timestamp × ℚ => x.1.le y.1) htrans htotal
        (lines.filterMap parse_log_line)
      simp only [read_data_from_log]
      split
      · exact List.Pairwise.map Prod.fst (fun a b hab => hab)
          (List.Pairwise.sublist (List.drop_sublist _ _) hsorted)
      · exact List.Pairwise.map Prod.fst (fun a b hab => hab) hsorted

/-- Witness for C10 at a concrete input: a one-character line splits
into a single part, so it is skipped. -/
theorem read_log_total_and_normalising_witness :
    read_data_from_log (some [['x']]) = read_data_from_log (some []) :=
  read_log_total_and_normalising.2.1 ['x'] [] (Or.inr (Or.inl (by decide)))

/-- C6: label styling against the two thresholds: with a numeric
current price and each threshold entry either empty or numeric, the
label is red bold when the sell threshold is set and reached (taking
precedence over the buy condition), green bold when the sell condition
does not fire but the buy threshold is set and at least the price, and
default black in every other case (both entries empty included). -/
theorem label_styling (bank c dt s b : PyStr) (cv : ℚ) (so bo : Option ℚ)
    (hc : pyFloat? c = some cv)
    (hs : floatOrNone s = .ok so) (hb : floatOrNone b = .ok bo) :
    ((∃ sv, so = some sv ∧ sv ≤ cv) →
      (update_price_label bank c dt s b).fg = .red ∧
      (update_price_label bank c dt s b).font = .bold12) ∧
    ((∀ sv, so = some sv → ¬ sv ≤ cv) →
      (∃ bv, bo = some bv ∧ cv ≤ bv) →
      (update_price_label bank c dt s b).fg = .green ∧
      (update_price_label bank c dt s b).font = .bold12) ∧
    ((∀ sv, so = some sv → ¬ sv ≤ cv) →
      (∀ bv, bo = some bv → ¬ cv ≤ bv) →
      (update_price_label bank c dt s b).fg = .black ∧
      (update_price_label bank c dt s b).font = .plain12) := by
  refine ⟨?_, ?_, ?_⟩
  · rintro ⟨sv, rfl, hle⟩
    constructor <;> simp [update_price_label, hc, hs, hb, Except.instMonad, Except.bind, Except.pure, bind, pure, hle]
  · intro hsell
    rintro ⟨bv, rfl, hle⟩
    rcases so with _ | sv
    · constructor <;> simp [update_price_label, hc, hs, hb, Except.instMonad, Except.bind, Except.pure, bind, pure, hle]
    · have hns : ¬ sv ≤ cv := hsell sv rfl
      constructor <;> simp [update_price_label, hc, hs, hb, Except.instMonad, Except.bind, Except.pure, bind, pure, hns, hle]
  · intro hsell hbuy
    rcases so with _ | sv
    · rcases bo with _ | bv
      · constructor <;> simp [update_price_label, hc, hs, hb, Except.instMonad, Except.bind, Except.pure, bind, pure]
      · have hnb : ¬ cv ≤ bv := hbuy bv rfl
        constructor <;> simp [update_price_label, hc, hs, hb, Except.instMonad, Except.bind, Except.pure, bind, pure, hnb]
    · have hns : ¬ sv ≤ cv := hsell sv rfl
      rcases bo with _ | bv
      · constructor <;> simp [update_price_label, hc, hs, hb, Except.instMonad, Except.bind, Except.pure, bind, pure, hns]
      · have hnb : ¬ cv ≤ bv := hbuy bv rfl
        constructor <;> simp [update_price_label, hc, hs, hb, Except.instMonad, Except.bind, Except.pure, bind, pure, hns, hnb]

/-- Witness for C6 at a concrete input: price 500 with sell threshold
490 set styles the label red bold. -/
theorem label_styling_witness :
    (update_price_label ("浙商".toList) ("500".toList) [] ("490".toList) []).fg
      = FgColor.red ∧
    (update_price_label ("浙商".toList) ("500".toList) [] ("490".toList) []).font
      = FontKind.bold12 :=
  (label_styling ("浙商".toList) ("500".toList) [] ("490".toList) []
    500 (some 490) none rfl rfl rfl).1 ⟨490, rfl, by norm_num⟩

/-- Decomposition of a tick's event trace: whatever the branch, the
trace is the try-block's events (none of which schedules anything)
followed by the single trailing `root.after(15000, ...)`. -/
theorem fetch_data_events_decomp (st : MonitorState) (inp : TickInput) :
    ∃ evts, (fetch_data st inp).events = evts ++ [TickEvent.schedule 15000] ∧
      evts.countP isScheduleEvent = 0 := by
  rcases hzs : inp.zsFetch with ⟨zp, zt⟩ | e
  · rcases hms : inp.msFetch with ⟨mp, mt⟩ | e
    · by_cases h1 : (save_data_to_history st.zs_data_history zp inp.now).2 = true
      · by_cases h2 : (save_data_to_history st.ms_data_history mp inp.now).2 = true
        · refine ⟨[.fetchCall .zs, .fetchCall .ms, .labelSet .zs, .labelSet .ms,
            .logAppend .zs, .logAppend .ms, .historySave .zs, .historySave .ms,
            .chartUpdate], ?_, by decide⟩
          simp [fetch_data, hzs, hms, h1, h2]
        · refine ⟨[.fetchCall .zs, .fetchCall .ms, .labelSet .zs, .labelSet .ms,
            .logAppend .zs, .logAppend .ms, .historySave .zs, .historySave .ms,
            .labelSet .zs, .labelSet .ms], ?_, by decide⟩
          simp [fetch_data, hzs, hms, h1, h2]
      · refine ⟨[.fetchCall .zs, .fetchCall .ms, .labelSet .zs, .labelSet .ms,
          .logAppend .zs, .logAppend .ms, .historySave .zs,
          .labelSet .zs, .labelSet .ms], ?_, by decide⟩
        simp [fetch_data, hzs, hms, h1]
    · refine ⟨[.fetchCall .zs, .fetchCall .ms, .labelSet .zs, .labelSet .ms], ?_, by decide⟩
      simp [fetch_data, hzs, hms]
  · refine ⟨[.fetchCall .zs, .labelSet .zs, .labelSet .ms], ?_, by decide⟩
    simp [fetch_data, hzs]

/-- C8: every invocation of `fetch_data`, on the normal path and on
every handled exception path alike, schedules exactly one next
invocation, 15000 ms later, and that scheduling is the last event of
the tick, after the whole body has run. -/
theorem tick_schedules_exactly_one (st : MonitorState) (inp : TickInput) :
    (fetch_data st inp).events.countP isScheduleEvent = 1 ∧
    (fetch_data st inp).events.count (TickEvent.schedule 15000) = 1 ∧
    (fetch_data st inp).events.getLast? = some (TickEvent.schedule 15000) := by
  obtain ⟨evts, hev, hcnt⟩ := fetch_data_events_decomp st inp
  refine ⟨?_, ?_, ?_⟩
  · rw [hev, List.countP_append, hcnt]
    rfl
  · rw [hev, List.count_append]
    have hle : evts.count (TickEvent.schedule 15000) ≤ evts.countP isScheduleEvent := by
      apply List.countP_mono_left
      intro a _ hEq
      have ha : a = TickEvent.schedule 15000 := by simpa using hEq
      subst ha
      rfl
    have h0 : evts.count (TickEvent.schedule 15000) = 0 := by omega
    rw [h0]
    rfl
  · rw [hev]
    exact List.getLast?_concat _

/-- C3: a raised fetch failure is caught inside the tick (the tick
still completes, scheduling the next one) and replaces both label
texts with the static per-exception error strings; neither fetch is
invoked more than once within the tick, so there is no retry. -/
theorem fetch_error_sets_static_labels (st : MonitorState) (inp : TickInput)
    (e : FetchErr)
    (herr : inp.zsFetch = .err e ∨
      (∃ p t, inp.zsFetch = .ok p t ∧ inp.msFetch = .err e)) :
    (fetch_data st inp).state.zs_price_label.text = errTextZs e ∧
    (fetch_data st inp).state.ms_price_label.text = errTextMs e ∧
    (fetch_data st inp).events.count (TickEvent.fetchCall .zs) ≤ 1 ∧
    (fetch_data st inp).events.count (TickEvent.fetchCall .ms) ≤ 1 ∧
    (fetch_data st inp).events.count (TickEvent.schedule 15000) = 1 := by
  rcases herr with hzs | ⟨p, t, hzs, hms⟩
  · have hev : (fetch_data st inp).events =
        [.fetchCall .zs, .labelSet .zs, .labelSet .ms, .schedule 15000] := by
      simp [fetch_data, hzs]
    refine ⟨by simp [fetch_data, hzs], by simp [fetch_data, hzs], ?_, ?_, ?_⟩ <;>
      rw [hev] <;> decide
  · have hev : (fetch_data st inp).events =
        [.fetchCall .zs, .fetchCall .ms, .labelSet .zs, .labelSet .ms,
          .schedule 15000] := by
      simp [fetch_data, hzs, hms]
    refine ⟨by simp [fetch_data, hzs, hms], by simp [fetch_data, hzs, hms],
      ?_, ?_, ?_⟩ <;> rw [hev] <;> decide

/-- Witness for C3 at a concrete input. -/
theorem fetch_error_sets_static_labels_witness :
    (fetch_data initState inpZsErr).state.zs_price_label.text
        = errTextZs .requestErr ∧
    (fetch_data initState inpZsErr).state.ms_price_label.text
        = errTextMs .requestErr ∧
    (fetch_data initState inpZsErr).events.count (TickEvent.fetchCall .zs) ≤ 1 ∧
    (fetch_data initState inpZsErr).events.count (TickEvent.fetchCall .ms) ≤ 1 ∧
    (fetch_data initState inpZsErr).events.count (TickEvent.schedule 15000) = 1 :=
  fetch_error_sets_static_labels initState inpZsErr .requestErr (Or.inl rfl)

/-- C7: every reading is logged: when both fetches succeed the tick
appends exactly one formatted line to each source's log, and a fetch
failure (raised before the logging calls) means no line is appended to
either log. -/
theorem every_reading_logged (st : MonitorState) (inp : TickInput) :
    (∀ zp zt mp mt, inp.zsFetch = .ok zp zt → inp.msFetch = .ok mp mt →
      (fetch_data st inp).zsLog = [csv_line zt zp] ∧
      (fetch_data st inp).msLog = [csv_line mt mp]) ∧
    (∀ e, (inp.zsFetch = .err e ∨ inp.msFetch = .err e) →
      (fetch_data st inp).zsLog = [] ∧ (fetch_data st inp).msLog = []) := by
  constructor
  · intro zp zt mp mt hzs hms
    by_cases h1 : (save_data_to_history st.zs_data_history zp inp.now).2 = true
    · by_cases h2 : (save_data_to_history st.ms_data_history mp inp.now).2 = true
      · constructor <;> simp [fetch_data, hzs, hms, h1, h2]
      · constructor <;> simp [fetch_data, hzs, hms, h1, h2]
    · constructor <;> simp [fetch_data, hzs, hms, h1]
  · intro e he
    rcases he with hzs | hms
    · constructor <;> simp [fetch_data, hzs]
    · rcases hzs2 : inp.zsFetch with ⟨p, t⟩ | e2
      · constructor <;> simp [fetch_data, hzs2, hms]
      · constructor <;> simp [fetch_data, hzs2]

/-- Witness for C7 at a concrete input. -/
theorem every_reading_logged_witness :
    (fetch_data initState inpOk).zsLog
        = [csv_line ("2024-01-01 00:00:00".toList) ("500".toList)] ∧
    (fetch_data initState inpOk).msLog
        = [csv_line ("2024-01-01 00:00:01".toList) ("501".toList)] :=
  (every_reading_logged initState inpOk).1 _ _ _ _ rfl rfl

/-- C9: on-error atomicity: when either fetch raises (in particular
when the second fetch fails after the first succeeded), neither
source's history changes and neither log gains a line in that tick. -/
theorem fetch_error_tick_atomic (st : MonitorState) (inp : TickInput) (e : FetchErr)
    (he : inp.zsFetch = .err e ∨ inp.msFetch = .err e) :
    (fetch_data st inp).state.zs_data_history = st.zs_data_history ∧
    (fetch_data st inp).state.ms_data_history = st.ms_data_history ∧
    (fetch_data st inp).zsLog = [] ∧ (fetch_data st inp).msLog = [] := by
  rcases he with hzs | hms
  · refine ⟨?_, ?_, ?_, ?_⟩ <;> simp [fetch_data, hzs]
  · rcases hzs : inp.zsFetch with ⟨p, t⟩ | e2
    · refine ⟨?_, ?_, ?_, ?_⟩ <;> simp [fetch_data, hzs, hms]
    · refine ⟨?_, ?_, ?_, ?_⟩ <;> simp [fetch_data, hzs]

/-- Witness for C9 at a concrete input: the second fetch fails after
the first succeeded, and the first reading is discarded entirely. -/
theorem fetch_error_tick_atomic_witness :
    (fetch_data initState inpMsErr).state.zs_data_history
        = initState.zs_data_history ∧
    (fetch_data initState inpMsErr).state.ms_data_history
        = initState.ms_data_history ∧
    (fetch_data initState inpMsErr).zsLog = [] ∧
    (fetch_data initState inpMsErr).msLog = [] :=
  fetch_error_tick_atomic initState inpMsErr .valueErr (Or.inr rfl)

/-! ### Sanity checks of the embedded parsers on concrete values -/

example : pyFloat? ("500".toList) = some 500 := by decide
example : (pyFloat? ("123.45".toList)).isSome = true := by decide
example : pyFloat? ("abc".toList) = none := by decide
example : pyFloat? ("".toList) = none := by decide
example : strptime? ("2024-01-02 03:04:05".toList) = some ⟨2024, 1, 2, 3, 4, 5⟩ := by decide
example : strptime? ("2023-02-29 00:00:00".toList) = none := by decide
example : strptime? ("bad".toList) = none := by decide
example : pySplit '"' ("\x22a\x22,\x22b\x22".toList) =
    [[], ['a'], [','], ['b'], []] := by decide
example : parse_log_line (csv_line ("2024-01-02 03:04:05".toList) ("500".toList)) =
    some (⟨2024, 1, 2, 3, 4, 5⟩, (500 : ℚ)) := by decide
